import Mathlib

/-!
Verification development for the environmental monitoring and alert system.

The repository ships the frontend (`script.js`) and documentation; the Flask
backend (`app.py`, `predictions.py`, `database.py`) that implements the
analytics core (Risk Scorer, Correlation Detector, Trend Predictor, Alert
Composer) is referenced by the docs and the frontend but its source is not
present.  Those components are therefore modelled from the specification
(sections 4.2 to 4.5); the frontend functions `getRiskMarkerColor`,
`displayContextualAlerts`, `showAlert` and the correlation renderer are
embedded directly from `script.js`.

Numeric fields are modelled as rationals; the EPA air-quality index band
(an integer 1 to 6) is a natural number.
-/

/-- One measurement snapshot for a location at an instant (spec section 3).
Numeric fields are rationals; `epa_index` is the US EPA air-quality band. -/
structure Reading where
  location_name : String
  lat : ℚ
  lon : ℚ
  timestamp : ℚ
  temp_c : ℚ
  humidity : ℚ
  wind_kph : ℚ
  pressure_mb : ℚ
  vis_km : ℚ
  uv_index : ℚ
  pm2_5 : ℚ
  pm10 : ℚ
  o3 : ℚ
  no2 : ℚ
  epa_index : ℕ
deriving DecidableEq

/-- Risk level, a pure function of the score (spec section 3). -/
inductive RiskLevel
  | low
  | moderate
  | high
deriving DecidableEq

/-- One triggered factor in the risk breakdown (spec section 3). -/
structure RiskFactor where
  name : String
  value : ℚ
  severity_label : String
  points : ℕ
deriving DecidableEq

/-- Derived risk assessment (spec section 3). -/
structure RiskAssessment where
  score : ℕ
  level : RiskLevel
  factors : List RiskFactor
deriving DecidableEq

/-- Modelled from the spec: the backend Risk Scorer is not in the sources.
Temperature row of the scoring table in section 4.2: 20 points when above
35 or below -10, 10 points when above 30 or below -5. -/
def tempPoints (t : ℚ) : ℕ :=
  if t > 35 ∨ t < -10 then 20
  else if t > 30 ∨ t < -5 then 10
  else 0

/-- Modelled from the spec: humidity row of the section 4.2 table,
15 points below 20 percent or above 80 percent. -/
def humidityPoints (h : ℚ) : ℕ :=
  if h < 20 ∨ h > 80 then 15 else 0

/-- Modelled from the spec: wind row of the section 4.2 table,
15 points above 50 km/h, 8 points above 35 km/h. -/
def windPoints (w : ℚ) : ℕ :=
  if w > 50 then 15 else if w > 35 then 8 else 0

/-- Modelled from the spec: air-quality row of the section 4.2 table,
for EPA index at least 4, 10 points per index step above 3, capped at 30. -/
def epaPoints (e : ℕ) : ℕ :=
  if 4 ≤ e then min 30 (10 * (e - 3)) else 0

/-- Modelled from the spec: UV row of the section 4.2 table, triggered
above 8: 10 points when extreme (above 10), 5 points when moderate (8-10). -/
def uvPoints (u : ℚ) : ℕ :=
  if u > 10 then 10 else if u > 8 then 5 else 0

/-- Sum of the points of the factors triggered by a reading. -/
def sumPoints (r : Reading) : ℕ :=
  tempPoints r.temp_c + humidityPoints r.humidity + windPoints r.wind_kph +
    epaPoints r.epa_index + uvPoints r.uv_index

/-- Temperature severity label for the factor breakdown. -/
def tempLabel (t : ℚ) : String :=
  if t > 35 ∨ t < -10 then "extreme" else "moderate"

/-- Wind severity label for the factor breakdown. -/
def windLabel (w : ℚ) : String :=
  if w > 50 then "severe" else "moderate"

/-- UV severity label for the factor breakdown. -/
def uvLabel (u : ℚ) : String :=
  if u > 10 then "extreme" else "moderate"

/-- Modelled from the spec: the factors list contains only triggered
factors, one entry per scoring-table row whose points are positive. -/
def triggeredFactors (r : Reading) : List RiskFactor :=
  (if tempPoints r.temp_c > 0 then
    [⟨"Temperature", r.temp_c, tempLabel r.temp_c, tempPoints r.temp_c⟩] else []) ++
  (if humidityPoints r.humidity > 0 then
    [⟨"Humidity", r.humidity, "extreme", humidityPoints r.humidity⟩] else []) ++
  (if windPoints r.wind_kph > 0 then
    [⟨"Wind speed", r.wind_kph, windLabel r.wind_kph, windPoints r.wind_kph⟩] else []) ++
  (if epaPoints r.epa_index > 0 then
    [⟨"Air quality", (r.epa_index : ℚ), "unhealthy", epaPoints r.epa_index⟩] else []) ++
  (if uvPoints r.uv_index > 0 then
    [⟨"UV index", r.uv_index, uvLabel r.uv_index, uvPoints r.uv_index⟩] else [])

/-- Insert a factor into a list sorted descending by points. -/
def insertFactorDesc (f : RiskFactor) : List RiskFactor → List RiskFactor
  | [] => [f]
  | g :: gs => if g.points ≤ f.points then f :: g :: gs else g :: insertFactorDesc f gs

/-- Sort a factor list descending by points (insertion sort). -/
def sortFactorsDesc : List RiskFactor → List RiskFactor
  | [] => []
  | f :: fs => insertFactorDesc f (sortFactorsDesc fs)

/-- Level bands of spec section 3: 0-30 low, 31-60 moderate, 61-100 high. -/
def riskLevelOf (s : ℕ) : RiskLevel :=
  if s ≤ 30 then .low else if s ≤ 60 then .moderate else .high

/-- Modelled from the spec: the backend Risk Scorer (`GetRisk`,
spec sections 4.2 and 6).  Final score is `min 100` of the summed points;
the factors list holds the triggered factors sorted descending by points. -/
def GetRisk (r : Reading) : RiskAssessment :=
  { score := min 100 (sumPoints r)
    level := riskLevelOf (min 100 (sumPoints r))
    factors := sortFactorsDesc (triggeredFactors r) }

/-- The reading of the spec section 8 scenario: temp 38, humidity 15,
wind 55 km/h, EPA index 5, UV index 9 (remaining fields immaterial). -/
def scenarioReading : Reading :=
  { location_name := "scenario"
    lat := 0, lon := 0, timestamp := 0
    temp_c := 38, humidity := 15, wind_kph := 55
    pressure_mb := 1013, vis_km := 10, uv_index := 9
    pm2_5 := 0, pm10 := 0, o3 := 0, no2 := 0
    epa_index := 5 }

/-- Claim C1: for every valid Reading the Risk Scorer output satisfies
score = min(100, sum of the triggered factors points), hence the score is
between 0 and 100. -/
theorem risk_score_bounded (r : Reading) :
    (GetRisk r).score = min 100 (sumPoints r) ∧ (GetRisk r).score ≤ 100 := by
  constructor
  · rfl
  · exact Nat.min_le_left 100 (sumPoints r)

/-- Witness for C1 at the scenario reading. -/
theorem risk_score_bounded_witness :
    (GetRisk scenarioReading).score = min 100 (sumPoints scenarioReading) ∧
      (GetRisk scenarioReading).score ≤ 100 :=
  risk_score_bounded scenarioReading

/-- Claim C2, counterexample: on the scenario reading the scorer modelled
from the section 4.2 table yields 75 (UV 9 is in the moderate 8-10 band,
worth 5 points, and 20+15+15+20+5 = 75), not the claimed 100. -/
theorem risk_scenario_counterexample :
    (GetRisk scenarioReading).score = 75 ∧ (GetRisk scenarioReading).score ≠ 100 := by
  constructor
  · decide
  · decide

/-- Claim C2, amended: the scenario reading scores
min(100, 20+15+15+20+5) = 75, level high, with exactly 5 factors listed,
the EPA-index contribution being 10 points per step above 3 capped at 30
(hence 20 for index 5). -/
theorem risk_scenario_amended :
    (GetRisk scenarioReading).score = min 100 (20 + 15 + 15 + 20 + 5) ∧
      (GetRisk scenarioReading).level = RiskLevel.high ∧
      (GetRisk scenarioReading).factors.length = 5 ∧
      epaPoints scenarioReading.epa_index = min 30 (10 * (5 - 3)) := by
  refine ⟨by decide, by decide, by decide, by decide⟩

/-- Temperature input of the second reading is at least as severe as that
of the first: either both on the warm side of the safe band and hotter,
or both on the cool side and colder. -/
def tempMoreSevere (t1 t2 : ℚ) : Prop :=
  (-5 ≤ t1 ∧ t1 ≤ t2) ∨ (t2 ≤ t1 ∧ t1 ≤ 30)

/-- Humidity input of the second reading is at least as severe: either
both on the dry side and drier, or both on the humid side and more humid. -/
def humidityMoreSevere (h1 h2 : ℚ) : Prop :=
  (20 ≤ h1 ∧ h1 ≤ h2) ∨ (h2 ≤ h1 ∧ h1 ≤ 80)

theorem tempPoints_mono {t1 t2 : ℚ} (h : tempMoreSevere t1 t2) :
    tempPoints t1 ≤ tempPoints t2 := by
  unfold tempPoints
  rcases h with ⟨hlo, hle⟩ | ⟨hle, hhi⟩
  · have hB : ¬ t1 < -5 := by linarith
    have hA : ¬ t1 < -10 := by linarith
    by_cases h35 : t1 > 35
    · rw [if_pos (Or.inl h35), if_pos (Or.inl (by linarith : t2 > 35))]
    · rw [if_neg (by tauto : ¬ (t1 > 35 ∨ t1 < -10))]
      by_cases h30 : t1 > 30
      · rw [if_pos (Or.inl h30)]
        by_cases g35 : t2 > 35
        · rw [if_pos (Or.inl g35)]; omega
        · rw [if_neg (by push_neg; exact ⟨not_lt.mp g35, by linarith⟩),
            if_pos (Or.inl (lt_of_lt_of_le h30 hle))]
      · rw [if_neg (by tauto : ¬ (t1 > 30 ∨ t1 < -5))]
        exact Nat.zero_le _
  · have hB : ¬ t1 > 30 := by linarith
    have hA : ¬ t1 > 35 := by linarith
    by_cases h10 : t1 < -10
    · rw [if_pos (Or.inr h10), if_pos (Or.inr (by linarith : t2 < -10))]
    · rw [if_neg (by tauto : ¬ (t1 > 35 ∨ t1 < -10))]
      by_cases h5 : t1 < -5
      · rw [if_pos (Or.inr h5)]
        by_cases g10 : t2 < -10
        · rw [if_pos (Or.inr g10)]; omega
        · rw [if_neg (by push_neg; exact ⟨by linarith, not_lt.mp g10⟩),
            if_pos (Or.inr (lt_of_le_of_lt hle h5))]
      · rw [if_neg (by tauto : ¬ (t1 > 30 ∨ t1 < -5))]
        exact Nat.zero_le _

theorem humidityPoints_mono {h1 h2 : ℚ} (h : humidityMoreSevere h1 h2) :
    humidityPoints h1 ≤ humidityPoints h2 := by
  unfold humidityPoints
  rcases h with ⟨hlo, hle⟩ | ⟨hle, hhi⟩
  · have hA : ¬ h1 < 20 := by linarith
    by_cases h80 : h1 > 80
    · rw [if_pos (Or.inr h80), if_pos (Or.inr (h80.trans_le hle))]
    · rw [if_neg (by tauto : ¬ (h1 < 20 ∨ h1 > 80))]
      exact Nat.zero_le _
  · have hA : ¬ h1 > 80 := by linarith
    by_cases h20 : h1 < 20
    · rw [if_pos (Or.inl h20), if_pos (Or.inl (lt_of_le_of_lt hle h20))]
    · rw [if_neg (by tauto : ¬ (h1 < 20 ∨ h1 > 80))]
      exact Nat.zero_le _

theorem windPoints_mono {w1 w2 : ℚ} (h : w1 ≤ w2) :
    windPoints w1 ≤ windPoints w2 := by
  unfold windPoints
  split_ifs <;> first | omega | linarith

theorem epaPoints_mono {e1 e2 : ℕ} (h : e1 ≤ e2) :
    epaPoints e1 ≤ epaPoints e2 := by
  unfold epaPoints
  split_ifs <;> omega

theorem uvPoints_mono {u1 u2 : ℚ} (h : u1 ≤ u2) :
    uvPoints u1 ≤ uvPoints u2 := by
  unfold uvPoints
  split_ifs <;> first | omega | linarith

/-- The second reading differs from the first only in one factor input,
and that input is at least as severe (for wind, EPA index and UV severity
grows with the value; temperature and humidity are severe at both ends). -/
def moreSevereInOneFactor (r1 r2 : Reading) : Prop :=
  (tempMoreSevere r1.temp_c r2.temp_c ∧ r2 = { r1 with temp_c := r2.temp_c }) ∨
  (humidityMoreSevere r1.humidity r2.humidity ∧ r2 = { r1 with humidity := r2.humidity }) ∨
  (r1.wind_kph ≤ r2.wind_kph ∧ r2 = { r1 with wind_kph := r2.wind_kph }) ∨
  (r1.epa_index ≤ r2.epa_index ∧ r2 = { r1 with epa_index := r2.epa_index }) ∨
  (r1.uv_index ≤ r2.uv_index ∧ r2 = { r1 with uv_index := r2.uv_index })

/-- Claim C3: for every pair of valid readings differing only in one
factor input, with that factor at least as severe in the second, the Risk
Scorer never returns a smaller score for the second reading. -/
theorem risk_monotone_single_factor (r1 r2 : Reading)
    (h : moreSevereInOneFactor r1 r2) :
    (GetRisk r1).score ≤ (GetRisk r2).score := by
  have hsum : sumPoints r1 ≤ sumPoints r2 := by
    rcases h with ⟨hs, he⟩ | ⟨hs, he⟩ | ⟨hs, he⟩ | ⟨hs, he⟩ | ⟨hs, he⟩ <;>
      rw [he] <;> unfold sumPoints <;> simp only
    · exact Nat.add_le_add_right (Nat.add_le_add_right (Nat.add_le_add_right
        (Nat.add_le_add_right (tempPoints_mono hs) _) _) _) _
    · exact Nat.add_le_add_right (Nat.add_le_add_right (Nat.add_le_add_right
        (Nat.add_le_add_left (humidityPoints_mono hs) _) _) _) _
    · exact Nat.add_le_add_right (Nat.add_le_add_right (Nat.add_le_add_left
        (windPoints_mono hs) _) _) _
    · exact Nat.add_le_add_right (Nat.add_le_add_left (epaPoints_mono hs) _) _
    · exact Nat.add_le_add_left (uvPoints_mono hs) _
  exact min_le_min (Nat.le_refl 100) hsum

/-- Witness for C3: warming the scenario reading from 38 to 45 degrees,
all other fields unchanged, does not decrease the score. -/
theorem risk_monotone_single_factor_witness :
    moreSevereInOneFactor scenarioReading { scenarioReading with temp_c := 45 } ∧
      (GetRisk scenarioReading).score ≤
        (GetRisk { scenarioReading with temp_c := 45 }).score := by
  have h : moreSevereInOneFactor scenarioReading
      { scenarioReading with temp_c := 45 } := by
    left
    exact ⟨Or.inl ⟨by norm_num [scenarioReading], by norm_num [scenarioReading]⟩, rfl⟩
  exact ⟨h, risk_monotone_single_factor _ _ h⟩

/-- Modelled from the spec: per-metric trend of the Trend Predictor
(section 4.4 step 2), the change between first and last reading divided by
the elapsed hours, and 0 when the elapsed time is 0. -/
def metricTrend (dt first last : ℚ) : ℚ :=
  if dt = 0 then 0 else (last - first) / dt

/-- Maximum of a list of rationals (0 for the empty list). -/
def listMaxQ : List ℚ → ℚ
  | [] => 0
  | x :: xs => xs.foldl max x

/-- Minimum of a list of rationals (0 for the empty list). -/
def listMinQ : List ℚ → ℚ
  | [] => 0
  | x :: xs => xs.foldl min x

/-- Deviation of a reading's temperature from the straight line through
the first reading with the fitted slope (spec section 4.4 step 4). -/
def tempResidual (f : Reading) (slope : ℚ) (r : Reading) : ℚ :=
  r.temp_c - (f.temp_c + slope * (r.timestamp - f.timestamp))

/-- Mean squared temperature residual across the window. -/
def residualVariance (f : Reading) (slope : ℚ) (w : List Reading) : ℚ :=
  (w.map (fun r => tempResidual f slope r ^ 2)).sum / (w.length : ℚ)

/-- Modelled from the spec: confidence of the fit (section 4.4 step 4),
the temperature residual variance normalized by the temperature value
range (0 when the range is 0), clamped into [0.50, 0.95]; a zero-residual
window yields 0.95. -/
def baseConfidence (f l : Reading) (w : List Reading) : ℚ :=
  let slope := metricTrend (l.timestamp - f.timestamp) f.temp_c l.temp_c
  let range := listMaxQ (w.map (fun r => r.temp_c)) -
    listMinQ (w.map (fun r => r.temp_c))
  let nr := if range = 0 then 0 else residualVariance f slope w / range
  max (1/2) (min (19/20) (1 - nr))

/-- Failure kinds of the Trend Predictor (spec sections 6 and 7). -/
inductive PredictionError
  | insufficientData
  | locationNotFound
deriving DecidableEq

/-- Ephemeral result of the Trend Predictor (spec section 3). -/
structure Prediction where
  location_name : String
  prediction_for : ℚ
  predicted_temp_c : ℚ
  predicted_humidity : ℚ
  predicted_pm2_5 : ℚ
  confidence_score : ℚ
  data_points_used : ℕ
  temp_per_hour : ℚ
  humidity_per_hour : ℚ
  pm25_per_hour : ℚ
deriving DecidableEq

/-- Modelled from the spec: the prediction built from the first and last
readings of an accepted window (section 4.4 steps 1-4): each metric is
projected linearly from the last reading along its trend. -/
def mkPrediction (f l : Reading) (w : List Reading) (horizon : ℚ) : Prediction :=
  let dt := l.timestamp - f.timestamp
  { location_name := l.location_name
    prediction_for := l.timestamp + horizon
    predicted_temp_c := l.temp_c + metricTrend dt f.temp_c l.temp_c * horizon
    predicted_humidity := l.humidity + metricTrend dt f.humidity l.humidity * horizon
    predicted_pm2_5 := l.pm2_5 + metricTrend dt f.pm2_5 l.pm2_5 * horizon
    confidence_score := baseConfidence f l w
    data_points_used := w.length
    temp_per_hour := metricTrend dt f.temp_c l.temp_c
    humidity_per_hour := metricTrend dt f.humidity l.humidity
    pm25_per_hour := metricTrend dt f.pm2_5 l.pm2_5 }

/-- Modelled from the spec: the Trend Predictor `GetPrediction`
(sections 4.4 and 6).  The window is the ordered sequence of readings the
store returned for the location (oldest first); the predictor fails with
`insufficientData` when fewer readings than the minimum sample count are
supplied, and otherwise succeeds. -/
def GetPrediction (minSamples : ℕ) (w : List Reading) (horizon : ℚ) :
    Except PredictionError Prediction :=
  match w.head?, w.getLast? with
  | some f, some l =>
    if w.length < minSamples then .error .insufficientData
    else .ok (mkPrediction f l w horizon)
  | _, _ => .error .insufficientData

/-- Claim C4: with the default minimum sample count of 3, `GetPrediction`
fails with `insufficientData` on every window of exactly 2 readings, and
succeeds on every window of exactly 3 readings. -/
theorem prediction_sample_count :
    (∀ (w : List Reading) (hor : ℚ), w.length = 2 →
        GetPrediction 3 w hor = .error .insufficientData) ∧
    (∀ (w : List Reading) (hor : ℚ), w.length = 3 →
        ∃ p, GetPrediction 3 w hor = .ok p) := by
  constructor
  · intro w hor hw
    obtain ⟨a, b, rfl⟩ := List.length_eq_two.mp hw
    rfl
  · intro w hor hw
    obtain ⟨a, b, c, rfl⟩ := List.length_eq_three.mp hw
    exact ⟨_, rfl⟩

/-- Witness for C4 at concrete 2- and 3-reading windows. -/
theorem prediction_sample_count_witness :
    GetPrediction 3 [scenarioReading, scenarioReading] 1 =
      .error .insufficientData ∧
    ∃ p, GetPrediction 3 [scenarioReading, scenarioReading, scenarioReading] 1 = .ok p :=
  ⟨prediction_sample_count.1 _ 1 rfl, prediction_sample_count.2 _ 1 rfl⟩

/-- First reading of the spec section 8 prediction scenario window. -/
def rampR0 : Reading :=
  { location_name := "ramp"
    lat := 0, lon := 0, timestamp := 0
    temp_c := 20, humidity := 50, wind_kph := 10
    pressure_mb := 1013, vis_km := 10, uv_index := 5
    pm2_5 := 10, pm10 := 20, o3 := 30, no2 := 10
    epa_index := 2 }

/-- Second reading of the prediction scenario window, one hour later. -/
def rampR1 : Reading := { rampR0 with timestamp := 1, temp_c := 22 }

/-- Third reading of the prediction scenario window, two hours in. -/
def rampR2 : Reading := { rampR0 with timestamp := 2, temp_c := 24 }

/-- Window of 3 readings spaced 1 hour apart with temperatures 20, 22, 24
(the spec section 8 prediction scenario). -/
def rampWindow : List Reading := [rampR0, rampR1, rampR2]

theorem getLast?_replicate_succ {α : Type} (m : ℕ) (a : α) :
    (List.replicate (m + 1) a).getLast? = some a := by
  induction m with
  | zero => rfl
  | succ n ih =>
    rw [List.replicate_succ, List.replicate_succ, List.getLast?_cons_cons,
      ← List.replicate_succ]
    exact ih

theorem foldl_max_replicate (m : ℕ) (x : ℚ) :
    (List.replicate m x).foldl max x = x := by
  induction m with
  | zero => rfl
  | succ n ih => rw [List.replicate_succ, List.foldl_cons, max_self]; exact ih

theorem foldl_min_replicate (m : ℕ) (x : ℚ) :
    (List.replicate m x).foldl min x = x := by
  induction m with
  | zero => rfl
  | succ n ih => rw [List.replicate_succ, List.foldl_cons, min_self]; exact ih

theorem listMaxQ_replicate (m : ℕ) (x : ℚ) :
    listMaxQ (List.replicate (m + 1) x) = x := by
  rw [List.replicate_succ]
  exact foldl_max_replicate m x

theorem listMinQ_replicate (m : ℕ) (x : ℚ) :
    listMinQ (List.replicate (m + 1) x) = x := by
  rw [List.replicate_succ]
  exact foldl_min_replicate m x

theorem baseConfidence_replicate (r : Reading) (m : ℕ) :
    baseConfidence r r (List.replicate (m + 1) r) = 19/20 := by
  unfold baseConfidence
  have hslope : metricTrend (r.timestamp - r.timestamp) r.temp_c r.temp_c = 0 := by
    simp [metricTrend]
  have hmap : (List.replicate (m + 1) r).map (fun x => x.temp_c) =
      List.replicate (m + 1) r.temp_c := List.map_replicate
  rw [hmap, listMaxQ_replicate, listMinQ_replicate, hslope]
  norm_num [max_def, min_def]

/-- Claim C5: for every accepted window and each tracked metric, the trend
is (last - first) divided by the elapsed hours (0 when the elapsed time is
0) and the predicted value is last + trend times horizon; the 20/22/24 ramp
window predicts 26 degrees at horizon 1, and a constant window yields zero
trends, predicted values equal to the last reading and confidence 0.95. -/
theorem prediction_trend_formulas :
    (∀ (minS : ℕ) (w : List Reading) (hor : ℚ) (p : Prediction) (f l : Reading),
        w.head? = some f → w.getLast? = some l →
        GetPrediction minS w hor = .ok p →
        (p.temp_per_hour = if l.timestamp - f.timestamp = 0 then 0
            else (l.temp_c - f.temp_c) / (l.timestamp - f.timestamp)) ∧
        p.predicted_temp_c = l.temp_c + p.temp_per_hour * hor ∧
        (p.humidity_per_hour = if l.timestamp - f.timestamp = 0 then 0
            else (l.humidity - f.humidity) / (l.timestamp - f.timestamp)) ∧
        p.predicted_humidity = l.humidity + p.humidity_per_hour * hor ∧
        (p.pm25_per_hour = if l.timestamp - f.timestamp = 0 then 0
            else (l.pm2_5 - f.pm2_5) / (l.timestamp - f.timestamp)) ∧
        p.predicted_pm2_5 = l.pm2_5 + p.pm25_per_hour * hor) ∧
    (∃ p, GetPrediction 3 rampWindow 1 = .ok p ∧
        p.temp_per_hour = 2 ∧ p.predicted_temp_c = 26) ∧
    (∀ (r : Reading) (k : ℕ), 3 ≤ k →
        ∃ p, GetPrediction 3 (List.replicate k r) 1 = .ok p ∧
          p.temp_per_hour = 0 ∧ p.humidity_per_hour = 0 ∧ p.pm25_per_hour = 0 ∧
          p.predicted_temp_c = r.temp_c ∧ p.predicted_humidity = r.humidity ∧
          p.predicted_pm2_5 = r.pm2_5 ∧ p.confidence_score = 19/20) := by
  refine ⟨?_, ?_, ?_⟩
  · intro minS w hor p f l hf hl hp
    unfold GetPrediction at hp
    rw [hf, hl] at hp
    have hp2 : (if w.length < minS then
        (Except.error PredictionError.insufficientData :
          Except PredictionError Prediction)
        else Except.ok (mkPrediction f l w hor)) = Except.ok p := hp
    by_cases hlen : w.length < minS
    · rw [if_pos hlen] at hp2
      exact absurd hp2 (by simp)
    · rw [if_neg hlen] at hp2
      have hpe : p = mkPrediction f l w hor := (Except.ok.inj hp2).symm
      subst hpe
      unfold mkPrediction metricTrend
      exact ⟨rfl, rfl, rfl, rfl, rfl, rfl⟩
  · refine ⟨mkPrediction rampR0 rampR2 rampWindow 1, rfl, ?_, ?_⟩
    · show metricTrend (rampR2.timestamp - rampR0.timestamp)
        rampR0.temp_c rampR2.temp_c = 2
      norm_num [metricTrend, rampR0, rampR2]
    · show rampR2.temp_c + metricTrend (rampR2.timestamp - rampR0.timestamp)
        rampR0.temp_c rampR2.temp_c * 1 = 26
      norm_num [metricTrend, rampR0, rampR2]
  · intro r k hk
    obtain ⟨m, rfl⟩ : ∃ m, k = m + 1 := ⟨k - 1, by omega⟩
    have hhead : (List.replicate (m + 1) r).head? = some r := by
      rw [List.replicate_succ]; rfl
    have hlast := getLast?_replicate_succ m r
    have hlen : ¬ (List.replicate (m + 1) r).length < 3 := by
      rw [List.length_replicate]; omega
    refine ⟨mkPrediction r r (List.replicate (m + 1) r) 1, ?_, ?_⟩
    · unfold GetPrediction
      rw [hhead, hlast]
      show (if (List.replicate (m + 1) r).length < 3 then
          (Except.error PredictionError.insufficientData :
            Except PredictionError Prediction)
          else Except.ok (mkPrediction r r (List.replicate (m + 1) r) 1)) =
        Except.ok (mkPrediction r r (List.replicate (m + 1) r) 1)
      rw [if_neg hlen]
    · simp only [mkPrediction]
      rw [baseConfidence_replicate]
      simp [metricTrend]

/-- Witness for C5: the constant-window clause applied to a window of
three identical readings. -/
theorem prediction_trend_formulas_witness :
    ∃ p, GetPrediction 3 (List.replicate 3 rampR0) 1 = .ok p ∧
      p.temp_per_hour = 0 ∧ p.humidity_per_hour = 0 ∧ p.pm25_per_hour = 0 ∧
      p.predicted_temp_c = rampR0.temp_c ∧ p.predicted_humidity = rampR0.humidity ∧
      p.predicted_pm2_5 = rampR0.pm2_5 ∧ p.confidence_score = 19/20 :=
  prediction_trend_formulas.2.2 rampR0 3 (by omega)

/-- Modelled from the spec: multi-horizon confidence (section 4.4 step 5).
The spec fixes only that confidence must decrease (non-strictly) as the
horizon grows; the decay is modelled as the base confidence scaled by
10/(10+h) and floored at the 0.50 clamp. -/
def decayedConfidence (base : ℚ) (h : ℕ) : ℚ :=
  max (1/2) (base * (10 / (10 + (h : ℚ))))

/-- Prediction at one horizon of the multi-horizon variant: the same
fitted trend as the single-horizon predictor, with decayed confidence. -/
def mkMultiPrediction (f l : Reading) (w : List Reading) (h : ℕ) : Prediction :=
  { mkPrediction f l w (h : ℚ) with
      confidence_score := decayedConfidence (baseConfidence f l w) h }

/-- Modelled from the spec: `GetMultiPrediction` (sections 4.4 step 5 and
6) repeats the projection for each requested horizon using the same fitted
trend, one `Prediction` per horizon. -/
def GetMultiPrediction (minSamples : ℕ) (w : List Reading) (hs : List ℕ) :
    Except PredictionError (List Prediction) :=
  match w.head?, w.getLast? with
  | some f, some l =>
    if w.length < minSamples then .error .insufficientData
    else .ok (hs.map (fun h => mkMultiPrediction f l w h))
  | _, _ => .error .insufficientData

theorem baseConfidence_nonneg (f l : Reading) (w : List Reading) :
    0 ≤ baseConfidence f l w := by
  unfold baseConfidence
  exact le_trans (by norm_num) (le_max_left _ _)

theorem decayedConfidence_anti {base : ℚ} (hb : 0 ≤ base) {h1 h2 : ℕ}
    (h : h1 ≤ h2) : decayedConfidence base h2 ≤ decayedConfidence base h1 := by
  unfold decayedConfidence
  apply max_le_max le_rfl
  apply mul_le_mul_of_nonneg_left _ hb
  have h1p : (0 : ℚ) < 10 + (h1 : ℚ) := by positivity
  have hcast : (10 : ℚ) + (h1 : ℚ) ≤ 10 + (h2 : ℚ) := by
    have : (h1 : ℚ) ≤ (h2 : ℚ) := by exact_mod_cast h
    linarith
  exact div_le_div_of_nonneg_left (by norm_num) h1p hcast

/-- Claim C6: for a fixed accepted window, whenever horizon h1 is at most
horizon h2 in the requested sequence, the confidence score of the
prediction at h2 is at most that of the prediction at h1. -/
theorem multi_horizon_confidence_nonincreasing
    (minS : ℕ) (w : List Reading) (hs : List ℕ) (ps : List Prediction)
    (hok : GetMultiPrediction minS w hs = .ok ps)
    (i j h1 h2 : ℕ) (p q : Prediction)
    (hi : hs[i]? = some h1) (hj : hs[j]? = some h2)
    (hpi : ps[i]? = some p) (hpj : ps[j]? = some q)
    (hle : h1 ≤ h2) :
    q.confidence_score ≤ p.confidence_score := by
  unfold GetMultiPrediction at hok
  rcases hf : w.head? with _ | f
  · rw [hf] at hok
    exact absurd hok (by simp)
  · rcases hl : w.getLast? with _ | l
    · rw [hf, hl] at hok
      exact absurd hok (by simp)
    · rw [hf, hl] at hok
      have hok2 : (if w.length < minS then
          (Except.error PredictionError.insufficientData :
            Except PredictionError (List Prediction))
          else Except.ok (hs.map (fun h => mkMultiPrediction f l w h))) =
          Except.ok ps := hok
      by_cases hlen : w.length < minS
      · rw [if_pos hlen] at hok2
        exact absurd hok2 (by simp)
      · rw [if_neg hlen] at hok2
        have hps : ps = hs.map (fun h => mkMultiPrediction f l w h) :=
          (Except.ok.inj hok2).symm
        subst hps
        rw [List.getElem?_map, hi] at hpi
        rw [List.getElem?_map, hj] at hpj
        have hpe : p = mkMultiPrediction f l w h1 := (Option.some.inj hpi).symm
        have hqe : q = mkMultiPrediction f l w h2 := (Option.some.inj hpj).symm
        subst hpe
        subst hqe
        exact decayedConfidence_anti (baseConfidence_nonneg f l w) hle

/-- Witness for C6 on the ramp window with horizons 1 and 2. -/
theorem multi_horizon_confidence_nonincreasing_witness :
    ∃ ps p q, GetMultiPrediction 3 rampWindow [1, 2] = .ok ps ∧
      ps[0]? = some p ∧ ps[1]? = some q ∧
      q.confidence_score ≤ p.confidence_score := by
  refine ⟨_, _, _, rfl, rfl, rfl, ?_⟩
  exact multi_horizon_confidence_nonincreasing 3 rampWindow [1, 2] _ rfl
    0 1 1 2 _ _ rfl rfl rfl rfl (by omega)

/-- Severity tag of a correlation finding (spec section 3). -/
inductive SeverityTag
  | info
  | watch
  | warning
  | danger
deriving DecidableEq

/-- Ephemeral correlation finding (spec section 3). -/
structure CorrelationFinding where
  category : String
  severity_tag : SeverityTag
  message : String
  recommendation : Option String
deriving DecidableEq

/-- Rule 1 finding: poor air dispersion (spec section 4.3). -/
def poorAirDispersionFinding : CorrelationFinding :=
  { category := "poor air dispersion"
    severity_tag := .warning
    message := "High PM2.5 with low wind allows pollutants to accumulate"
    recommendation := some "Limit outdoor exposure" }

/-- Rule 2 finding: ozone formation risk (spec section 4.3). -/
def ozoneFormationFinding : CorrelationFinding :=
  { category := "ozone formation risk"
    severity_tag := .warning
    message := "High temperature with high PM2.5 favors ozone formation"
    recommendation := none }

/-- Rule 3 finding: heat stress risk (spec section 4.3). -/
def heatStressFinding : CorrelationFinding :=
  { category := "heat stress risk"
    severity_tag := .danger
    message := "High humidity with high temperature creates heat stress"
    recommendation := none }

/-- Rule 4 finding: sun protection needed (spec section 4.3). -/
def sunProtectionFinding : CorrelationFinding :=
  { category := "sun protection needed"
    severity_tag := .info
    message := "High UV index"
    recommendation := none }

/-- Rule 5 finding: weather change likely (spec section 4.3). -/
def weatherChangeFinding : CorrelationFinding :=
  { category := "weather change likely"
    severity_tag := .info
    message := "Low pressure system approaching"
    recommendation := none }

/-- Modelled from the spec: the Correlation Detector `GetCorrelations`
(sections 4.3 and 6).  The five rules are evaluated independently in
declaration order; each matching rule contributes one finding. -/
def GetCorrelations (r : Reading) : List CorrelationFinding :=
  (if r.pm2_5 > 50 ∧ r.wind_kph < 10 then [poorAirDispersionFinding] else []) ++
  (if r.temp_c > 30 ∧ r.pm2_5 > 35 then [ozoneFormationFinding] else []) ++
  (if r.humidity > 75 ∧ r.temp_c > 32 then [heatStressFinding] else []) ++
  (if r.uv_index > 7 then [sunProtectionFinding] else []) ++
  (if r.pressure_mb < 1000 then [weatherChangeFinding] else [])

/-- Claim C7: every reading with pm2_5 = 60 and wind 5 km/h that meets no
other rule threshold yields exactly the rule-1 poor-air-dispersion finding,
tagged warning, with a recommendation to limit outdoor exposure. -/
theorem correlations_poor_air_dispersion_only (r : Reading)
    (hpm : r.pm2_5 = 60) (hw : r.wind_kph = 5)
    (h2 : ¬ (r.temp_c > 30 ∧ r.pm2_5 > 35))
    (h3 : ¬ (r.humidity > 75 ∧ r.temp_c > 32))
    (h4 : ¬ r.uv_index > 7)
    (h5 : ¬ r.pressure_mb < 1000) :
    GetCorrelations r = [poorAirDispersionFinding] ∧
      poorAirDispersionFinding.severity_tag = SeverityTag.warning ∧
      poorAirDispersionFinding.recommendation = some "Limit outdoor exposure" := by
  refine ⟨?_, rfl, rfl⟩
  unfold GetCorrelations
  rw [if_pos ⟨by rw [hpm]; norm_num, by rw [hw]; norm_num⟩,
    if_neg h2, if_neg h3, if_neg h4, if_neg h5]
  rfl

/-- A reading meeting only the rule-1 thresholds. -/
def dispersionReading : Reading :=
  { location_name := "dispersion"
    lat := 0, lon := 0, timestamp := 0
    temp_c := 20, humidity := 50, wind_kph := 5
    pressure_mb := 1013, vis_km := 10, uv_index := 5
    pm2_5 := 60, pm10 := 80, o3 := 30, no2 := 10
    epa_index := 3 }

/-- Witness for C7 at a concrete reading. -/
theorem correlations_poor_air_dispersion_only_witness :
    GetCorrelations dispersionReading = [poorAirDispersionFinding] ∧
      poorAirDispersionFinding.severity_tag = SeverityTag.warning ∧
      poorAirDispersionFinding.recommendation = some "Limit outdoor exposure" :=
  correlations_poor_air_dispersion_only dispersionReading rfl rfl
    (by norm_num [dispersionReading]) (by norm_num [dispersionReading])
    (by norm_num [dispersionReading]) (by norm_num [dispersionReading])

/-- Severity of a composed contextual alert (spec section 3). -/
inductive AlertSeverity
  | low
  | medium
  | high
  | critical
deriving DecidableEq

/-- Ephemeral composed alert (spec section 3). -/
structure ContextualAlert where
  title : String
  severity : AlertSeverity
  what : String
  cause : String
  action : String
  sources : List String
deriving DecidableEq

/-- Modelled from the spec: a finding's tag maps to the matching composed
severity (section 4.5); info findings are surfaced at the lowest tier. -/
def severityOfTag : SeverityTag → AlertSeverity
  | .info => .low
  | .watch => .medium
  | .warning => .high
  | .danger => .critical

/-- Modelled from the spec: the alert composed from one correlation
finding (section 4.5). -/
def findingToAlert (f : CorrelationFinding) : ContextualAlert :=
  { title := f.category
    severity := severityOfTag f.severity_tag
    what := f.message
    cause := f.message
    action := f.recommendation.getD "Monitor conditions"
    sources := ["correlation"] }

/-- Modelled from the spec: the alert composed from a high risk score
(section 4.5), summarizing the top 3 factors by points. -/
def riskToAlert (ra : RiskAssessment) : ContextualAlert :=
  { title := "High environmental risk"
    severity := .critical
    what := String.intercalate ", " ((ra.factors.take 3).map (fun f => f.name))
    cause := "Multiple environmental factors are elevated"
    action := "Limit exposure and monitor conditions"
    sources := ["risk"] }

/-- Modelled from the spec: the Alert Composer (section 4.5).  A risk
score above 70 contributes one critical alert; every correlation finding
becomes one alert of matching severity; the prediction contribution is an
input because the spec does not fix when a `Prediction` raises an alert. -/
def composeAlerts (ra : RiskAssessment) (findings : List CorrelationFinding)
    (predAlerts : List ContextualAlert) : List ContextualAlert :=
  (if ra.score > 70 then [riskToAlert ra] else []) ++
    findings.map findingToAlert ++ predAlerts

/-- Sound level passed to `playAlertSound` in `script.js`. -/
inductive SoundLevel
  | low
  | medium
  | high
deriving DecidableEq

/-- Render state produced by `displayContextualAlerts` in `script.js`:
whether the alerts section is hidden, which notification sound is
requested, and the count badge value. -/
structure AlertsRender where
  hidden : Bool
  sound : Option SoundLevel
  count : ℕ
deriving DecidableEq

/-- Embedding of `displayContextualAlerts` (`script.js` lines 1014-1037):
an empty list hides the section and requests no sound; a nonempty list
shows it and requests the high sound when some alert is high or critical,
else the medium sound when some alert is medium, else the low sound. -/
def displayContextualAlerts (alerts : List ContextualAlert) : AlertsRender :=
  if alerts.length = 0 then { hidden := true, sound := none, count := 0 }
  else
    { hidden := false
      sound := some (if alerts.any (fun a => decide (a.severity = AlertSeverity.high ∨
            a.severity = AlertSeverity.critical)) then SoundLevel.high
        else if alerts.any (fun a => decide (a.severity = AlertSeverity.medium)) then
          SoundLevel.medium
        else SoundLevel.low)
      count := alerts.length }

/-- Banner type passed to `showAlert` in `script.js`. -/
inductive BannerType
  | success
  | info
  | warning
  | danger
deriving DecidableEq

/-- Embedding of the sound decision of `showAlert` (`script.js` lines
941-956): the high sound for danger banners, the medium sound for warning
banners, and no sound for success or info banners. -/
def showAlertSound : BannerType → Option SoundLevel
  | .danger => some .high
  | .warning => some .medium
  | _ => none

/-- Render state produced by `performCorrelationAnalysis` in `script.js`:
either the findings list, the no-significant-findings placeholder, or the
fetch-failure message (reached only on a network error). -/
inductive CorrelationRender
  | findingsList (cs : List CorrelationFinding)
  | noSignificantFindings
  | renderError
deriving DecidableEq

/-- Embedding of the rendering branch of `performCorrelationAnalysis`
(`script.js` lines 860-870): a nonempty list renders its items, an empty
list renders the no-significant-findings placeholder, never an error. -/
def renderCorrelations (cs : List CorrelationFinding) : CorrelationRender :=
  if cs.isEmpty then .noSignificantFindings else .findingsList cs

/-- Claim C8: when no component signaled (risk not above the threshold,
no correlation findings, no prediction alert) the composer returns an
empty list, and the caller renders this as a no-significant-findings
state, not an error. -/
theorem composer_empty_when_no_signal (ra : RiskAssessment)
    (hra : ra.score ≤ 70) :
    composeAlerts ra [] [] = [] ∧
      (displayContextualAlerts (composeAlerts ra [] [])).hidden = true ∧
      (displayContextualAlerts (composeAlerts ra [] [])).sound = none ∧
      renderCorrelations [] = CorrelationRender.noSignificantFindings ∧
      renderCorrelations [] ≠ CorrelationRender.renderError := by
  have hempty : composeAlerts ra [] [] = [] := by
    unfold composeAlerts
    rw [if_neg (by omega)]
    rfl
  refine ⟨hempty, ?_, ?_, rfl, by decide⟩ <;> rw [hempty] <;> rfl

/-- Witness for C8 with the risk assessment of a quiet reading. -/
theorem composer_empty_when_no_signal_witness :
    composeAlerts (GetRisk rampR0) [] [] = [] ∧
      (displayContextualAlerts (composeAlerts (GetRisk rampR0) [] [])).hidden = true ∧
      (displayContextualAlerts (composeAlerts (GetRisk rampR0) [] [])).sound = none ∧
      renderCorrelations [] = CorrelationRender.noSignificantFindings ∧
      renderCorrelations [] ≠ CorrelationRender.renderError :=
  composer_empty_when_no_signal (GetRisk rampR0) (by decide)

/-- Claim C9, counterexample: the alert composed from the info-tagged
sun-protection finding has low severity, yet surfacing the singleton list
through `displayContextualAlerts` requests the low notification sound —
a sound is played, refuting that info findings never cause one. -/
theorem info_alert_sound_counterexample :
    (findingToAlert sunProtectionFinding).severity = AlertSeverity.low ∧
      (displayContextualAlerts [findingToAlert sunProtectionFinding]).sound =
        some SoundLevel.low ∧
      (displayContextualAlerts [findingToAlert sunProtectionFinding]).sound ≠
        none := by
  refine ⟨rfl, rfl, by decide⟩

/-- Claim C9, amended: surfacing a composed alert list whose entries are
all low severity (info findings) never triggers the urgent/high or medium
signaling; at most the low-priority gentle notification sound plays. -/
theorem info_alerts_no_urgent_sound (alerts : List ContextualAlert)
    (hall : ∀ a ∈ alerts, a.severity = AlertSeverity.low) :
    (displayContextualAlerts alerts).sound = none ∨
      (displayContextualAlerts alerts).sound = some SoundLevel.low := by
  unfold displayContextualAlerts
  by_cases hlen : alerts.length = 0
  · left
    rw [if_pos hlen]
  · right
    rw [if_neg hlen]
    have hhigh : (alerts.any (fun a => decide (a.severity = AlertSeverity.high ∨
        a.severity = AlertSeverity.critical))) = false := by
      simp only [List.any_eq_false, decide_eq_false_iff_not]
      intro a ha
      rw [hall a ha]
      decide
    have hmed : (alerts.any (fun a => decide (a.severity = AlertSeverity.medium))) =
        false := by
      simp only [List.any_eq_false, decide_eq_false_iff_not]
      intro a ha
      rw [hall a ha]
      decide
    simp only [hhigh, hmed]
    rfl

/-- Witness for C9 at the singleton low-severity alert list. -/
theorem info_alerts_no_urgent_sound_witness :
    (displayContextualAlerts [findingToAlert sunProtectionFinding]).sound = none ∨
      (displayContextualAlerts [findingToAlert sunProtectionFinding]).sound =
        some SoundLevel.low :=
  info_alerts_no_urgent_sound [findingToAlert sunProtectionFinding]
    (by intro a ha; simp at ha; rw [ha]; rfl)

/-- Embedding of `getRiskMarkerColor` (`script.js` lines 335-342).  The
input is the risk score as delivered by the monitored-locations API, with
`none` standing for a null or undefined score; the JavaScript falsy check
`!riskScore` also fires on a numeric 0. -/
def getRiskMarkerColor (riskScore : Option ℚ) : String :=
  match riskScore with
  | none => "#95a5a6"
  | some s =>
    if s = 0 then "#95a5a6"
    else if s ≥ 80 then "#e74c3c"
    else if s ≥ 60 then "#e67e22"
    else if s ≥ 40 then "#f39c12"
    else if s ≥ 20 then "#3498db"
    else "#2ecc71"

/-- Claim C10: `getRiskMarkerColor` maps every numeric score into the five
band colors (red at 80 and above, orange at 60, yellow at 40, blue at 20,
green otherwise), except that 0 — like null or undefined — yields the gray
no-data color because the falsy check treats a genuine zero score as
missing data. -/
theorem risk_marker_color_bands :
    getRiskMarkerColor none = "#95a5a6" ∧
      getRiskMarkerColor (some 0) = "#95a5a6" ∧
      ∀ s : ℚ, s ≠ 0 →
        getRiskMarkerColor (some s) =
          (if s ≥ 80 then "#e74c3c"
           else if s ≥ 60 then "#e67e22"
           else if s ≥ 40 then "#f39c12"
           else if s ≥ 20 then "#3498db"
           else "#2ecc71") := by
  refine ⟨rfl, by decide, ?_⟩
  intro s hs
  show (if s = 0 then "#95a5a6"
    else if s ≥ 80 then "#e74c3c"
    else if s ≥ 60 then "#e67e22"
    else if s ≥ 40 then "#f39c12"
    else if s ≥ 20 then "#3498db"
    else "#2ecc71") = _
  rw [if_neg hs]

/-- Witness for C10: a score of 25 is nonzero and lands in the blue band. -/
theorem risk_marker_color_bands_witness :
    getRiskMarkerColor (some 25) = "#3498db" := by
  rw [risk_marker_color_bands.2.2 25 (by norm_num)]
  decide
